import Mathlib

/-!
Shallow embedding of the `pdfium-wrapper-sys` crate of `litong01/pdfiumlib`:
the build-time library locator (`build.rs`) and the foreign-interface
declarations (`src/lib.rs`), with theorems about the locator's resolution
order, its fixed target table, its emitted build directives, its failure
behaviour, and the declared layout of the bitmap record.
-/

namespace PdfiumWrapperSys

/-- The build environment seen by `build.rs`: the two optional override
variables and the Cargo-provided target triple (`TARGET`, always set). -/
structure BuildEnv where
  pdfium_lib_dir : Option String
  pdfium_root : Option String
  target : String

/-- `p` is a prefix of `s`, computed on the character lists. -/
def strIsPrefixOf (p s : String) : Bool := List.isPrefixOf p.data s.data

/-- `suf` is a suffix of `s`, computed on the character lists. -/
def strEndsWith (s suf : String) : Bool :=
  List.isPrefixOf suf.data.reverse s.data.reverse

/-- Drop the last `n` characters of `s`. -/
def strDropRight (s : String) (n : Nat) : String :=
  String.mk (s.data.take (s.data.length - n))

/-- `PathBuf::join` for the paths this script builds: an absolute component
replaces the path, otherwise a separator is inserted unless already present. -/
def pathJoin (a b : String) : String :=
  if strIsPrefixOf "/" b then b
  else if a.data.isEmpty then b
  else if strEndsWith a "/" then a ++ b
  else a ++ "/" ++ b

/-- `target_to_subdir` from `build.rs`: map a Cargo target triple to the
subdirectory inside the pdf-engine bundle; the catch-all arm panics, which we
embed as `Except.error` carrying the panic message. -/
def target_to_subdir (target : String) : Except String String :=
  if target = "aarch64-linux-android" then Except.ok "android/arm64-v8a"
  else if target = "armv7-linux-androideabi" then Except.ok "android/armeabi-v7a"
  else if target = "x86_64-linux-android" then Except.ok "android/x86_64"
  else if target = "i686-linux-android" then Except.ok "android/x86"
  else if target = "aarch64-apple-ios" then Except.ok "ios/arm64"
  else if target = "x86_64-apple-ios" then Except.ok "ios/x86_64"
  else if target = "aarch64-apple-ios-sim" then Except.ok "ios/x86_64"
  else Except.error ("pdfium-wrapper-sys: unsupported target '" ++ target ++
    "'. Set PDFIUM_LIB_DIR manually.")

/-- A run of `n` copies of the character `c`. -/
def charRun (c : Char) (n : Nat) : String := String.mk (List.replicate n c)

/-- The panic message of `main` when neither override variable is set
(the Rust `\`-continued multi-line string, newlines preserved; the box
borders and space padding are built with `charRun`, matching the source
character-for-character). -/
def noLibsMessage : String :=
  "\n╔" ++ charRun '═' 62 ++ "╗\n" ++
  "║  pdfium-wrapper-sys: cannot find native libraries." ++
    charRun ' ' 9 ++ "║\n" ++
  "║" ++ charRun ' ' 60 ++ "║\n" ++
  "║  Set one of:" ++ charRun ' ' 47 ++ "║\n" ++
  "║    PDFIUM_LIB_DIR=/path/to/<arch>/lib" ++ charRun ' ' 22 ++ "║\n" ++
  "║    PDFIUM_ROOT=/path/to/extracted/pdf-engine" ++
    charRun ' ' 16 ++ "║\n" ++
  "╚" ++ charRun '═' 62 ++ "╝\n"

/-- The `lib_dir` let-binding of `main` in `build.rs`: `PDFIUM_LIB_DIR`
verbatim if set, else `PDFIUM_ROOT` joined with the per-target subdirectory
joined with `lib`, else the diagnostic panic; a `target_to_subdir` panic
propagates. -/
def resolveLibDir (env : BuildEnv) : Except String String :=
  match env.pdfium_lib_dir with
  | some dir => Except.ok dir
  | none =>
    match env.pdfium_root with
    | some root =>
      (target_to_subdir env.target).map
        (fun subdir => pathJoin (pathJoin root subdir) "lib")
    | none => Except.error noLibsMessage

/-- The five `cargo:` directives printed by `main` on success, in source
order. -/
def directives (libDir : String) : List String :=
  [ "cargo:rustc-link-search=native=" ++ libDir,
    "cargo:rustc-link-lib=static=pdfium_wrapper",
    "cargo:rustc-link-lib=dylib=pdfium",
    "cargo:rerun-if-env-changed=PDFIUM_LIB_DIR",
    "cargo:rerun-if-env-changed=PDFIUM_ROOT" ]

/-- Outcome of a run of the build script: the directives printed to the build
system, and the panic message when it aborted. -/
structure BuildOutcome where
  emitted : List String
  panicMsg : Option String
  deriving Repr, DecidableEq

/-- `main` from `build.rs`, with the filesystem abstracted as the predicate
`fsExists` answering `PathBuf::exists`. Every panic occurs before any
`println!`, so a panicking run emits nothing. -/
def main (env : BuildEnv) (fsExists : String → Bool) : BuildOutcome :=
  match resolveLibDir env with
  | Except.error e => ⟨[], some e⟩
  | Except.ok libDir =>
    if fsExists libDir then ⟨directives libDir, none⟩
    else ⟨[], some ("pdfium-wrapper-sys: library directory does not exist: "
                     ++ libDir)⟩

/-- The seven target triples matched by name in `target_to_subdir`. -/
def supportedTargets : List String :=
  [ "aarch64-linux-android", "armv7-linux-androideabi",
    "x86_64-linux-android", "i686-linux-android",
    "aarch64-apple-ios", "x86_64-apple-ios", "aarch64-apple-ios-sim" ]

/-- A simulator triple is one carrying the `-sim` suffix. -/
def isSimTriple (t : String) : Bool := strEndsWith t "-sim"

/-- The device triple of a simulator triple: the `-sim` suffix stripped. -/
def deviceOf (t : String) : String := strDropRight t 4

/-- `s` contains `sub` as a contiguous substring (stated on the character
lists). -/
def strContains (s sub : String) : Prop :=
  ∃ a b : List Char, a ++ sub.data ++ b = s.data

/-- The OS family of a supported triple, read off the mapped subdirectory. -/
def familyOf (t : String) : Option String :=
  match target_to_subdir t with
  | Except.ok s =>
    if strIsPrefixOf "android/" s then some "android"
    else if strIsPrefixOf "ios/" s then some "ios"
    else none
  | Except.error _ => none

/-- Members of `supportedTargets` whose mapped subdirectory lies in the
Android part of the bundle. -/
def androidTargets : List String :=
  supportedTargets.filter (fun t => familyOf t == some "android")

/-- Members of `supportedTargets` whose mapped subdirectory lies in the iOS
part of the bundle. -/
def iosTargets : List String :=
  supportedTargets.filter (fun t => familyOf t == some "ios")

instance : DecidableEq (Except String String) := fun a b =>
  match a, b with
  | Except.ok x, Except.ok y => decidable_of_iff (x = y) (by simp)
  | Except.ok _, Except.error _ => Decidable.isFalse (by simp)
  | Except.error _, Except.ok _ => Decidable.isFalse (by simp)
  | Except.error x, Except.error y => decidable_of_iff (x = y) (by simp)

/-- Simulator triples of the table whose subdirectory coincides with that of
the device triple of the same CPU architecture. -/
def aliasedSimTargets : List String :=
  supportedTargets.filter
    (fun t => isSimTriple t &&
      decide (target_to_subdir t = target_to_subdir (deviceOf t)))

/-! ### The foreign-interface declarations (`src/lib.rs`) -/

/-- The C type of a field of the bitmap record, as declared in `lib.rs`. -/
inductive CFieldType where
  | ucharPtr : CFieldType
  | cInt : CFieldType
  deriving Repr, DecidableEq

/-- `PdfiumBitmap` is declared `#[repr(C)]`. -/
def pdfiumBitmapReprC : Bool := true

/-- The fields of `struct PdfiumBitmap`, in declaration order:
`data : *mut c_uchar`, `width : c_int`, `height : c_int`, `stride : c_int`. -/
def pdfiumBitmapFields : List (String × CFieldType) :=
  [ ("data", CFieldType.ucharPtr),
    ("width", CFieldType.cInt),
    ("height", CFieldType.cInt),
    ("stride", CFieldType.cInt) ]

/-- Size in bytes of a field type on an LP64 target (the mobile targets of
the table are all LP64/ILP32-with-8-byte-pointers 64-bit, except i686/armv7;
we compute the 64-bit layout). -/
def sizeOfType : CFieldType → Nat
  | CFieldType.ucharPtr => 8
  | CFieldType.cInt => 4

/-- Alignment in bytes of a field type on an LP64 target. -/
def alignOfType : CFieldType → Nat
  | CFieldType.ucharPtr => 8
  | CFieldType.cInt => 4

/-- Round `n` up to the next multiple of `a`. -/
def alignUp (n a : Nat) : Nat := ((n + a - 1) / a) * a

/-- Field offsets of a `repr(C)` struct: each field is placed at the current
size rounded up to the field's alignment. -/
def structOffsets (fs : List CFieldType) : List Nat :=
  (fs.foldl
    (fun acc f =>
      let off := alignUp acc.1 (alignOfType f)
      (off + sizeOfType f, acc.2 ++ [off]))
    ((0 : Nat), ([] : List Nat))).2

/-- Total size of a `repr(C)` struct: the end of the last field rounded up to
the struct alignment (the maximal field alignment). -/
def structSize (fs : List CFieldType) : Nat :=
  let last := fs.foldl (fun acc f => alignUp acc (alignOfType f) + sizeOfType f) 0
  alignUp last (fs.foldl (fun m f => max m (alignOfType f)) 1)

/-! ### Helper lemmas -/

theorem string_append_assoc (a b c : String) : a ++ b ++ c = a ++ (b ++ c) := by
  apply String.ext
  simp [String.data_append, List.append_assoc]

theorem target_to_subdir_of_not_mem (t : String) (h : t ∉ supportedTargets) :
    target_to_subdir t =
      Except.error ("pdfium-wrapper-sys: unsupported target '" ++ t ++
        "'. Set PDFIUM_LIB_DIR manually.") := by
  simp only [supportedTargets, List.mem_cons, List.not_mem_nil, or_false,
    not_or] at h
  obtain ⟨h1, h2, h3, h4, h5, h6, h7⟩ := h
  simp [target_to_subdir, h1, h2, h3, h4, h5, h6, h7]

theorem target_to_subdir_isOk_iff (t : String) :
    (target_to_subdir t).isOk = true ↔ t ∈ supportedTargets := by
  constructor
  · intro hOk
    by_contra hmem
    rw [target_to_subdir_of_not_mem t hmem] at hOk
    simp [Except.isOk, Except.toBool] at hOk
  · intro hmem
    fin_cases hmem <;> decide

theorem strContains_of_any (s sub : String)
    (h : (List.range (s.data.length + 1)).any
      (fun i => List.isPrefixOf sub.data (s.data.drop i)) = true) :
    strContains s sub := by
  rw [List.any_eq_true] at h
  obtain ⟨i, _, hp⟩ := h
  simp only [List.isPrefixOf_iff_prefix] at hp
  obtain ⟨t, ht⟩ := hp
  exact ⟨s.data.take i, t, by rw [List.append_assoc, ht, List.take_append_drop]⟩

theorem strContains_mid (a b c : String) : strContains (a ++ b ++ c) b :=
  ⟨a.data, c.data, by simp [String.data_append]⟩

theorem strContains_append_left (a c sub : String) (h : strContains c sub) :
    strContains (a ++ c) sub := by
  obtain ⟨x, y, hxy⟩ := h
  exact ⟨a.data ++ x, y,
    by simp [String.data_append, ← hxy, List.append_assoc]⟩

theorem strContains_right (a b : String) : strContains (a ++ b) b :=
  ⟨a.data, [], by simp [String.data_append]⟩

/-! ### Claims -/

set_option maxRecDepth 40000 in
/-- C1: the library-directory resolution is first-match-wins: if
`PDFIUM_LIB_DIR` is set its value is used verbatim; otherwise if
`PDFIUM_ROOT` is set the directory is `PDFIUM_ROOT` joined with the
subdirectory computed from the target triple (by `target_to_subdir`, plus the
`lib` segment); otherwise resolution fails with a diagnostic listing both
override variables. -/
theorem C1_resolution_order (ld rt : Option String) (tg : String) :
    (∀ d, ld = some d → resolveLibDir ⟨ld, rt, tg⟩ = Except.ok d) ∧
    (ld = none → ∀ r, rt = some r →
      resolveLibDir ⟨ld, rt, tg⟩ = (target_to_subdir tg).map
        (fun subdir => pathJoin (pathJoin r subdir) "lib")) ∧
    (ld = none → rt = none →
      ∃ e, resolveLibDir ⟨ld, rt, tg⟩ = Except.error e ∧
        strContains e "PDFIUM_LIB_DIR" ∧ strContains e "PDFIUM_ROOT") := by
  refine ⟨fun d hd => ?_, fun h1 r hr => ?_, fun h1 h2 => ?_⟩
  · subst hd; rfl
  · subst h1; subst hr; rfl
  · subst h1; subst h2
    exact ⟨noLibsMessage, rfl,
      strContains_of_any _ _ (by decide), strContains_of_any _ _ (by decide)⟩

/-- Witness for C1 at concrete environments exercising all three branches. -/
theorem C1_resolution_order_witness :
    resolveLibDir ⟨some "/opt/libs", some "/r", "weird-target"⟩ =
      Except.ok "/opt/libs" ∧
    resolveLibDir ⟨none, some "/r", "aarch64-linux-android"⟩ =
      (target_to_subdir "aarch64-linux-android").map
        (fun subdir => pathJoin (pathJoin "/r" subdir) "lib") ∧
    (∃ e, resolveLibDir ⟨none, none, "aarch64-linux-android"⟩ =
        Except.error e ∧
      strContains e "PDFIUM_LIB_DIR" ∧ strContains e "PDFIUM_ROOT") :=
  ⟨(C1_resolution_order (some "/opt/libs") (some "/r") "weird-target").1 _ rfl,
   (C1_resolution_order none (some "/r") "aarch64-linux-android").2.1 rfl _ rfl,
   (C1_resolution_order none none "aarch64-linux-android").2.2 rfl rfl⟩

/-- C2 counterexample: no simulator triple of the table maps to the same
subdirectory as the device triple of the same CPU architecture — the only
simulator triple, `aarch64-apple-ios-sim`, maps to `ios/x86_64` while its
same-architecture device triple `aarch64-apple-ios` maps to `ios/arm64` — so
the count of such triples is 0, not 1. -/
theorem C2_counterexample : ¬ (aliasedSimTargets.length = 1) := by decide

/-- C2 amended: the table has exactly one simulator triple,
`aarch64-apple-ios-sim`, and it maps to the same subdirectory as a device
triple of a *different* CPU architecture (`x86_64-apple-ios`, the only
intentional aliasing in the table), while its subdirectory differs from that
of the device triple of its own architecture. -/
theorem C2_one_sim_aliased_cross_arch :
    (supportedTargets.filter (fun t => isSimTriple t)).length = 1 ∧
    "aarch64-apple-ios-sim" ∈ supportedTargets ∧
    isSimTriple "aarch64-apple-ios-sim" = true ∧
    isSimTriple "x86_64-apple-ios" = false ∧
    target_to_subdir "aarch64-apple-ios-sim" =
      target_to_subdir "x86_64-apple-ios" ∧
    deviceOf "aarch64-apple-ios-sim" = "aarch64-apple-ios" ∧
    target_to_subdir "aarch64-apple-ios-sim" ≠
      target_to_subdir "aarch64-apple-ios" := by
  decide

/-- C3: for every target in the fixed table, with `PDFIUM_LIB_DIR` unset and
`PDFIUM_ROOT` set, the resolved directory is the root joined with the
table's subdirectory joined with the fixed `lib` segment. -/
theorem C3_root_composition (rt tg : String) (r : String)
    (h2 : some rt = some r) (h3 : tg ∈ supportedTargets) :
    ∃ sub, target_to_subdir tg = Except.ok sub ∧
      resolveLibDir ⟨none, some rt, tg⟩ =
        Except.ok (pathJoin (pathJoin r sub) "lib") := by
  cases h2
  fin_cases h3 <;> exact ⟨_, rfl, rfl⟩

/-- Witness for C3 at a concrete supported target and root. -/
theorem C3_root_composition_witness :
    ∃ sub, target_to_subdir "i686-linux-android" = Except.ok sub ∧
      resolveLibDir ⟨none, some "/bundle", "i686-linux-android"⟩ =
        Except.ok (pathJoin (pathJoin "/bundle" sub) "lib") :=
  C3_root_composition "/bundle" "i686-linux-android" "/bundle" rfl (by decide)

/-- C4: for a target outside the fixed table, with `PDFIUM_LIB_DIR` unset
and `PDFIUM_ROOT` set, configuration fails (emitting nothing) and the
diagnostic names the unsupported target and the `PDFIUM_LIB_DIR` override. -/
theorem C4_unsupported_target_fails (rt tg : String)
    (h3 : tg ∉ supportedTargets) (fs : String → Bool) :
    ∃ e, resolveLibDir ⟨none, some rt, tg⟩ = Except.error e ∧
      main ⟨none, some rt, tg⟩ fs = ⟨[], some e⟩ ∧
      strContains e tg ∧ strContains e "PDFIUM_LIB_DIR" := by
  have herr := target_to_subdir_of_not_mem tg h3
  have hres : resolveLibDir ⟨none, some rt, tg⟩ =
      Except.error ("pdfium-wrapper-sys: unsupported target '" ++ tg ++
        "'. Set PDFIUM_LIB_DIR manually.") := by
    simp [resolveLibDir, herr, Except.map]
  refine ⟨_, hres, ?_, ?_, ?_⟩
  · simp [main, hres]
  · exact strContains_mid _ _ _
  · exact strContains_append_left _ _ _ (strContains_of_any _ _ (by decide))

/-- Witness for C4 at a concrete unsupported target. -/
theorem C4_unsupported_target_fails_witness :
    ("riscv64gc-unknown-linux-gnu" ∉ supportedTargets) ∧
    ∃ e, resolveLibDir ⟨none, some "/r", "riscv64gc-unknown-linux-gnu"⟩ =
        Except.error e ∧
      main ⟨none, some "/r", "riscv64gc-unknown-linux-gnu"⟩ (fun _ => true) =
        ⟨[], some e⟩ ∧
      strContains e "riscv64gc-unknown-linux-gnu" ∧
      strContains e "PDFIUM_LIB_DIR" :=
  ⟨by decide,
   C4_unsupported_target_fails "/r" "riscv64gc-unknown-linux-gnu"
     (by decide) (fun _ => true)⟩

/-- C5: whenever resolution produced a directory (by either mechanism) that
does not exist on the filesystem, the build fails with a diagnostic that
contains that exact path, and emits nothing. -/
theorem C5_missing_dir_fails (env : BuildEnv) (fs : String → Bool)
    (dir : String) (h1 : resolveLibDir env = Except.ok dir)
    (h2 : fs dir = false) :
    ∃ e, main env fs = ⟨[], some e⟩ ∧ strContains e dir := by
  refine ⟨_, ?_, strContains_right
    "pdfium-wrapper-sys: library directory does not exist: " dir⟩
  simp [main, h1, h2]

/-- Witness for C5 at a concrete override directory absent from the
filesystem. -/
theorem C5_missing_dir_fails_witness :
    resolveLibDir ⟨some "/no/such/dir", none, "t"⟩ =
      Except.ok "/no/such/dir" ∧
    ∃ e, main ⟨some "/no/such/dir", none, "t"⟩ (fun _ => false) =
        ⟨[], some e⟩ ∧ strContains e "/no/such/dir" :=
  ⟨rfl, C5_missing_dir_fails ⟨some "/no/such/dir", none, "t"⟩
    (fun _ => false) "/no/such/dir" rfl rfl⟩

/-- C6: when `PDFIUM_LIB_DIR` is set the resolved directory is its value
verbatim, independently of the target triple and of `PDFIUM_ROOT`: two runs
with the same `PDFIUM_LIB_DIR` but arbitrary differing targets and roots
resolve identically. -/
theorem C6_override_verbatim (d : String) (rt1 rt2 : Option String)
    (tg1 tg2 : String) :
    resolveLibDir ⟨some d, rt1, tg1⟩ = Except.ok d ∧
    resolveLibDir ⟨some d, rt1, tg1⟩ = resolveLibDir ⟨some d, rt2, tg2⟩ :=
  ⟨rfl, rfl⟩

/-- C7 counterexample: the claim's family sizes are wrong — the Android
family of the table has 4 CPU-architecture variants, not 2–3 (the iOS family
has 3). -/
theorem C7_counterexample :
    ¬ ((androidTargets.length = 2 ∨ androidTargets.length = 3) ∧
       (iosTargets.length = 2 ∨ iosTargets.length = 3)) := by decide

/-- C7 amended: the mapping is a fixed table over a closed set of mobile
targets — a triple is mapped successfully iff it is one of the seven listed
triples, each belonging to one of exactly two mobile OS families, Android
with 4 CPU-architecture variants and iOS with 3; every other triple is
unsupported. -/
theorem C7_fixed_closed_table :
    (∀ t : String, (target_to_subdir t).isOk = true ↔ t ∈ supportedTargets) ∧
    (∀ t ∈ supportedTargets,
      familyOf t = some "android" ∨ familyOf t = some "ios") ∧
    androidTargets.length = 4 ∧ iosTargets.length = 3 := by
  refine ⟨target_to_subdir_isOk_iff, ?_, by decide, by decide⟩
  intro t ht
  fin_cases ht <;> decide

/-- Witness for C7 at a concrete supported and a concrete unsupported
target. -/
theorem C7_fixed_closed_table_witness :
    ((target_to_subdir "armv7-linux-androideabi").isOk = true ↔
      "armv7-linux-androideabi" ∈ supportedTargets) ∧
    (familyOf "armv7-linux-androideabi" = some "android" ∨
      familyOf "armv7-linux-androideabi" = some "ios") ∧
    ((target_to_subdir "wasm32-unknown-unknown").isOk = true ↔
      "wasm32-unknown-unknown" ∈ supportedTargets) :=
  ⟨C7_fixed_closed_table.1 "armv7-linux-androideabi",
   C7_fixed_closed_table.2.1 "armv7-linux-androideabi" (by decide),
   C7_fixed_closed_table.1 "wasm32-unknown-unknown"⟩

/-- C8: a successful run emits exactly, and in this order, the native
link-search directive for the resolved directory, the static link directive
for `pdfium_wrapper`, the dynamic link directive for `pdfium`, and the
rerun-if-env-changed directives for `PDFIUM_LIB_DIR` and `PDFIUM_ROOT`. -/
theorem C8_success_directives (env : BuildEnv) (fs : String → Bool)
    (ds : List String) (h : main env fs = ⟨ds, none⟩) :
    ∃ dir, resolveLibDir env = Except.ok dir ∧ fs dir = true ∧
      ds = [ "cargo:rustc-link-search=native=" ++ dir,
             "cargo:rustc-link-lib=static=pdfium_wrapper",
             "cargo:rustc-link-lib=dylib=pdfium",
             "cargo:rerun-if-env-changed=PDFIUM_LIB_DIR",
             "cargo:rerun-if-env-changed=PDFIUM_ROOT" ] := by
  unfold main at h
  cases hres : resolveLibDir env with
  | error e =>
    rw [hres] at h
    simp at h
  | ok dir =>
    rw [hres] at h
    cases hfs : fs dir with
    | false => simp [hfs] at h
    | true =>
      simp [hfs] at h
      subst h
      exact ⟨dir, rfl, hfs, rfl⟩

/-- Witness for C8 on a concrete successful run. -/
theorem C8_success_directives_witness :
    ∃ dir, resolveLibDir ⟨some "/opt/pdfium", none, "t"⟩ = Except.ok dir ∧
      (fun _ : String => true) dir = true ∧
      directives "/opt/pdfium" =
        [ "cargo:rustc-link-search=native=" ++ dir,
          "cargo:rustc-link-lib=static=pdfium_wrapper",
          "cargo:rustc-link-lib=dylib=pdfium",
          "cargo:rerun-if-env-changed=PDFIUM_LIB_DIR",
          "cargo:rerun-if-env-changed=PDFIUM_ROOT" ] :=
  C8_success_directives ⟨some "/opt/pdfium", none, "t"⟩ (fun _ => true)
    (directives "/opt/pdfium") rfl

/-- C9: the bitmap record is declared `repr(C)` with fields, in order, a
pixel-buffer pointer `data` then the three `c_int` fields `width`, `height`,
`stride`; under the C layout rules (64-bit) this places them at offsets
0, 8, 12, 16 in a 24-byte record. -/
theorem C9_bitmap_layout :
    pdfiumBitmapReprC = true ∧
    pdfiumBitmapFields.map Prod.fst = ["data", "width", "height", "stride"] ∧
    pdfiumBitmapFields.map Prod.snd =
      [CFieldType.ucharPtr, CFieldType.cInt, CFieldType.cInt,
       CFieldType.cInt] ∧
    structOffsets (pdfiumBitmapFields.map Prod.snd) = [0, 8, 12, 16] ∧
    structSize (pdfiumBitmapFields.map Prod.snd) = 24 := by decide

/-- C10: failure is atomic with respect to build-system output — whenever a
run panics (any failure path), it emits no directive at all. -/
theorem C10_failure_emits_nothing (env : BuildEnv) (fs : String → Bool)
    (e : String) (h : (main env fs).panicMsg = some e) :
    (main env fs).emitted = [] := by
  unfold main at h ⊢
  cases hres : resolveLibDir env with
  | error e2 => rfl
  | ok dir =>
    rw [hres] at h
    cases hfs : fs dir with
    | false => simp [hfs]
    | true => simp [hfs] at h

/-- Witness for C10 on a concrete failing run (no override set). -/
theorem C10_failure_emits_nothing_witness :
    (main ⟨none, none, "t"⟩ (fun _ => true)).panicMsg = some noLibsMessage ∧
    (main ⟨none, none, "t"⟩ (fun _ => true)).emitted = [] :=
  ⟨rfl, C10_failure_emits_nothing ⟨none, none, "t"⟩ (fun _ => true)
    noLibsMessage rfl⟩

end PdfiumWrapperSys
